import Mathlib

/-!
Shallow embedding of `src/sync_service.py` (a Flask service syncing Mailchimp
webhook events to Regal.io) and `src/startup_script.py`.

Modelling conventions:
- `os.environ` is a map `String → Option String`; `os.environ[k]` raises
  `KeyError` when the key is absent, modelled as `Except String`.
- An HTTP call made with the `requests` library either fails at the transport
  level (`requests.exceptions.RequestException`: connection error, timeout, …)
  or delivers a response with a status code and an already-JSON-decoded body;
  `Response.raise_for_status` raises `requests.exceptions.HTTPError` exactly
  when `400 ≤ status < 600` (its documented behaviour), modelled as `Except`.
- Python local variables that some branches leave unassigned are modelled as
  `Option`; reading an unassigned local raises `UnboundLocalError`, and
  reading a name bound nowhere raises `NameError`.  Uncaught Python
  exceptions surface as the `Except PyErr` result of the handler.
- The externally visible effects of the handler (HTTP posts to Regal.io,
  sleeps — the source performs none) are collected in an `Action` trace.
-/

namespace SyncService

/-- An uncaught Python exception of `sync_service.py`. -/
inductive PyErr where
  | valueError
  | unboundLocal (name : String)
  | nameError (name : String)
  deriving Repr, DecidableEq

/-- Whitespace as Python's `int()` strips it around a numeric literal. -/
def isPySpace (c : Char) : Bool :=
  c == ' ' || c == '\t' || c == '\n' || c == '\r'

/-- A character list with surrounding whitespace removed. -/
def stripChars (cs : List Char) : List Char :=
  ((cs.dropWhile isPySpace).reverse.dropWhile isPySpace).reverse

/-- Python's `int(s)` on a string: optional surrounding whitespace, an optional
sign, then decimal digits; anything else raises `ValueError` (in particular
`int "3.5"` and `int "abc"` raise). -/
def pyInt (s : String) : Except PyErr Int :=
  let cs := stripChars s.toList
  let (sign, digits) :=
    match cs with
    | '-' :: t => ((-1 : Int), t)
    | '+' :: t => ((1 : Int), t)
    | t => ((1 : Int), t)
  if digits.length > 0 && digits.all Char.isDigit then
    .ok (sign * (digits.foldl (fun n c => 10 * n + (c.toNat - 48)) 0 : Nat))
  else
    .error .valueError

instance {ε α : Type} [DecidableEq ε] [DecidableEq α] :
    DecidableEq (Except ε α)
  | .error e, .error f => decidable_of_iff (e = f) (by simp)
  | .error _, .ok _ => isFalse (by simp)
  | .ok _, .error _ => isFalse (by simp)
  | .ok a, .ok b => decidable_of_iff (a = b) (by simp)

/-- The four module-level configuration constants of `sync_service.py`
(lines 11–14), each read with `os.environ[...]` at import time. -/
structure Config where
  REGAL_IO_API_KEY : String
  MAILCHIMP_API_KEY : String
  MAILCHIMP_LIST_ID : String
  MAILCHIMP_DC : String
  deriving Repr, DecidableEq

/-- `os.environ[key]`: raises `KeyError key` when the variable is absent. -/
def osEnvironGet (env : String → Option String) (key : String) :
    Except String String :=
  match env key with
  | some v => .ok v
  | none => .error key

/-- Module import of `sync_service.py`: the four `os.environ[...]` reads at
lines 11–14, in source order.  The process only starts (the module only
loads) when all four succeed. -/
def loadConfig (env : String → Option String) : Except String Config := do
  let r ← osEnvironGet env "REGAL_IO_API_KEY"
  let m ← osEnvironGet env "MAILCHIMP_API_KEY"
  let l ← osEnvironGet env "MAILCHIMP_LIST_ID"
  let d ← osEnvironGet env "MAILCHIMP_DC"
  .ok ⟨r, m, l, d⟩

/-- Outcome of one `requests` call: a delivered response (status code and
JSON-decoded body), or a transport-level `RequestException`. -/
inductive HttpResponse (β : Type) where
  | ok (status : Nat) (body : β)
  | transportError
  deriving Repr, DecidableEq

/-- `Response.raise_for_status()` composed with the transport outcome: a
transport error has already raised; a delivered response raises `HTTPError`
iff `400 ≤ status < 600` (client/server error), otherwise the body is
available.  All these exceptions are `requests.exceptions.RequestException`s,
which the callers below catch. -/
def raiseForStatus {β : Type} : HttpResponse β → Except Unit β
  | .transportError => .error ()
  | .ok status body =>
      if 400 ≤ status ∧ status < 600 then .error () else .ok body

/-- The `campaign_defaults` object of the Mailchimp list body; each field may
be absent (`dict.get` with default `""` is applied by the caller). -/
structure CampaignDefaults where
  from_name : Option String
  from_email : Option String
  subject : Option String
  language : Option String
  deriving Repr, DecidableEq

/-- The `stats` object of the Mailchimp list body.  The source copies the
rates verbatim; their numeric type is modelled as `Int`. -/
structure ListStats where
  open_rate : Option Int
  click_rate : Option Int
  deriving Repr, DecidableEq

/-- JSON body of `GET /lists/{list_id}`: the two sub-objects may be absent
(`data.get("campaign_defaults", {})`, `data.get("stats", {})`). -/
structure ListApiBody where
  campaign_defaults : Option CampaignDefaults
  stats : Option ListStats
  deriving Repr, DecidableEq

/-- The six-key dict built by `get_mailchimp_list_info` on success. -/
structure ListInfoData where
  from_name : String
  from_email : String
  subject : String
  language : String
  open_rate : Int
  click_rate : Int
  deriving Repr, DecidableEq

/-- `get_mailchimp_list_info()` (lines 175–192): on success returns the
six-key dict extracted with defaulting `get`s; on any
`RequestException` (transport failure or `raise_for_status`) returns the
empty dict, modelled as `none`. -/
def get_mailchimp_list_info (resp : HttpResponse ListApiBody) :
    Option ListInfoData :=
  match raiseForStatus resp with
  | .error _ => none
  | .ok data =>
      let cd := data.campaign_defaults.getD ⟨none, none, none, none⟩
      let st := data.stats.getD ⟨none, none⟩
      some { from_name := cd.from_name.getD ""
             from_email := cd.from_email.getD ""
             subject := cd.subject.getD ""
             language := cd.language.getD ""
             open_rate := st.open_rate.getD 0
             click_rate := st.click_rate.getD 0 }

/-- `mailchimp_list_info.get(key, "")` on the dict returned by
`get_mailchimp_list_info` (`none` is the empty dict). -/
def listInfoStr (li : Option ListInfoData) (f : ListInfoData → String) : String :=
  (li.map f).getD ""

/-- `mailchimp_list_info.get(key, 0)` for the two rate fields. -/
def listInfoNum (li : Option ListInfoData) (f : ListInfoData → Int) : Int :=
  (li.map f).getD 0

/-- One entry of a recipient's `activity` array.  The source indexes
`action["action"]` unconditionally; the Mailchimp email-activity schema
always carries the field, so it is modelled as mandatory. -/
structure Activity where
  action : String
  deriving Repr, DecidableEq

/-- One element of the `emails` array of the email-activity report.  The
source reads both fields with defaulting `get`s, so they are optional. -/
structure Recipient where
  email_address : Option String
  activity : Option (List Activity)
  deriving Repr, DecidableEq

/-- JSON body of `GET /reports/{campaign_id}/email-activity`; the `emails`
array may be absent (`data.get("emails", [])`). -/
structure ReportBody where
  emails : Option (List Recipient)
  deriving Repr, DecidableEq

/-- A GET request made against the Mailchimp API: its URL and query
parameters (the source sends none). -/
structure HttpRequest where
  url : String
  params : List (String × String)
  deriving Repr, DecidableEq

/-- The one request `get_campaign_recipients` builds (line 197 and the
`requests.get` of line 200): the email-activity report URL under
`MAILCHIMP_API_BASE`, with no query parameters — in particular no
`offset` or `count`. -/
def campaignRecipientsRequest (cfg : Config) (campaign_id : String) :
    HttpRequest :=
  ⟨"https://" ++ cfg.MAILCHIMP_DC ++ ".api.mailchimp.com/3.0/reports/"
      ++ campaign_id ++ "/email-activity", []⟩

/-- `get_campaign_recipients(campaign_id)` (lines 194–206): performs ONE
`requests.get` of the email-activity report and returns
`data.get("emails", [])`; on any `RequestException` returns `[]`.  There is
no pagination loop: whatever the one response carries is the whole result.
The first component of the result is the list of HTTP requests performed,
in order. -/
def get_campaign_recipients (cfg : Config)
    (server : HttpRequest → HttpResponse ReportBody) (campaign_id : String) :
    List HttpRequest × List Recipient :=
  let req := campaignRecipientsRequest cfg campaign_id
  match raiseForStatus (server req) with
  | .ok data => ([req], data.emails.getD [])
  | .error _ => ([req], [])

/-- `traits` of the per-recipient payload built in the campaign branch
(lines 107–119).  `emailOptIn` is the nested `{"subscribed": true}` object,
flattened to its one field. -/
structure CampaignTraits where
  email : String
  emailOptIn_subscribed : Bool
  campaign_subject : String
  from_name : String
  from_email : String
  language : String
  open_rate : Int
  click_rate : Int
  clicked_link : Nat
  opened_email : Nat
  bounced_email : Nat
  deriving Repr, DecidableEq

/-- `properties` of the per-recipient payload of the campaign branch
(lines 121–129). -/
structure CampaignProps where
  email_subject : String
  clicked_link : Nat
  opened_email : Nat
  bounced_email : Nat
  campaign_id : String
  open_rate : Int
  click_rate : Int
  deriving Repr, DecidableEq

/-- The payload sent to Regal.io for one recipient of a sent campaign
(lines 106–131). -/
structure CampaignPayload where
  traits : CampaignTraits
  name : String
  properties : CampaignProps
  eventSource : String
  deriving Repr, DecidableEq

/-- `traits` of the non-campaign payload (lines 141–158).  `emails_key` is
the single key of the nested `emails` dict; `emailOptIn_subscribed` its
nested value.  The four engagement fields keep the types the source gives
them: `clicked_link` was coerced with `int(...)` at line 62, the other three
are the raw webhook strings (lines 63–65, no coercion). -/
structure NonCampaignTraits where
  phone : String
  emails_key : String
  emailOptIn_subscribed : Bool
  firstName : String
  lastName : String
  zip : String
  state : String
  clicked_link : Int
  opened_email : String
  bounced_email : String
  marked_as_spam : String
  deriving Repr, DecidableEq

/-- `properties` of the non-campaign payload (lines 160–165). -/
structure NonCampaignProps where
  clicked_link : Int
  opened_email : String
  bounced_email : String
  marked_as_spam : String
  deriving Repr, DecidableEq

/-- The payload sent to Regal.io for a non-campaign webhook
(lines 139–167). -/
structure NonCampaignPayload where
  traits : NonCampaignTraits
  name : String
  properties : NonCampaignProps
  eventSource : String
  deriving Repr, DecidableEq

/-- A payload handed to `send_to_regal` (either shape). -/
inductive RegalPayload where
  | campaignP (p : CampaignPayload)
  | nonCampaignP (p : NonCampaignPayload)
  deriving Repr, DecidableEq

/-- What `send_to_regal` returns to its caller: `None` after the success
log, or the `(jsonify({"status": "error", ...}), 500)` pair after a caught
`RequestException` (the caller ignores both). -/
inductive SendResult where
  | okLogged
  | errorReturned
  deriving Repr, DecidableEq

/-- `send_to_regal(payload)` (lines 208–221): one POST to the Regal.io
events endpoint; `raise_for_status` errors and transport errors are caught
inside the function (`except requests.exceptions.RequestException`), so no
exception reaches the caller. -/
def send_to_regal (deliver : RegalPayload → HttpResponse Unit)
    (payload : RegalPayload) : SendResult :=
  match raiseForStatus (deliver payload) with
  | .ok _ => .okLogged
  | .error _ => .errorReturned

/-- An externally visible effect of the webhook handler: a delivery call to
Regal.io (with its outcome), or a sleep of some number of seconds.  The
source contains no sleep call; the constructor exists so that statements
about pacing between deliveries can be expressed. -/
inductive Action where
  | callRegal (payload : RegalPayload) (result : SendResult)
  | sleep (seconds : Nat)
  deriving Repr, DecidableEq

/-- Whether an action is a sleep. -/
def Action.isSleep : Action → Bool
  | .sleep _ => true
  | .callRegal _ _ => false

/-- A response body built with `jsonify` in the handler: the
`{"status": ..., "message": ...}` shape, or the
`{"status": ..., "regal_response": ...}` shape of line 172. -/
inductive JsonResp where
  | statusMessage (status message : String)
  | statusRegalResponse (status regal_response : String)
  deriving Repr, DecidableEq

/-- The payload for one campaign recipient (lines 99–131): the three
counters count the entries of the recipient's activity log whose `action`
equals `"click"`, `"open"`, `"bounce"` respectively. -/
def buildCampaignEvent (li : Option ListInfoData)
    (campaign_id campaign_subject : String) (r : Recipient) : CampaignPayload :=
  let recipient_email := r.email_address.getD ""
  let activity := r.activity.getD []
  let clicks := activity.countP (fun a => a.action == "click")
  let opens := activity.countP (fun a => a.action == "open")
  let bounces := activity.countP (fun a => a.action == "bounce")
  { traits := { email := recipient_email
                emailOptIn_subscribed := true
                campaign_subject := campaign_subject
                from_name := listInfoStr li (fun d => d.from_name)
                from_email := listInfoStr li (fun d => d.from_email)
                language := listInfoStr li (fun d => d.language)
                open_rate := listInfoNum li (fun d => d.open_rate)
                click_rate := listInfoNum li (fun d => d.click_rate)
                clicked_link := clicks
                opened_email := opens
                bounced_email := bounces }
    name := "Campaign Sent"
    properties := { email_subject := campaign_subject
                    clicked_link := clicks
                    opened_email := opens
                    bounced_email := bounces
                    campaign_id := campaign_id
                    open_rate := listInfoNum li (fun d => d.open_rate)
                    click_rate := listInfoNum li (fun d => d.click_rate) }
    eventSource := "MailChimp" }

/-- The `for recipient in recipients` loop of the campaign branch
(lines 98–132): for each recipient, build the payload and call
`send_to_regal`; nothing else happens between iterations (in particular no
sleep). -/
def campaignLoop (li : Option ListInfoData)
    (deliver : RegalPayload → HttpResponse Unit)
    (campaign_id campaign_subject : String) (recipients : List Recipient) :
    List Action :=
  recipients.map (fun r =>
    let payload := RegalPayload.campaignP
      (buildCampaignEvent li campaign_id campaign_subject r)
    Action.callRegal payload (send_to_regal deliver payload))

/-- The whole `event_type == "campaign"` branch (lines 91–134): fetch the
recipients, send one event per recipient, and return
`({"status": "success", "message": "Campaign processed"}, 200)`
unconditionally. -/
def campaignBranch (li : Option ListInfoData) (cfg : Config)
    (server : HttpRequest → HttpResponse ReportBody)
    (deliver : RegalPayload → HttpResponse Unit)
    (campaign_id campaign_subject : String) :
    List Action × Except PyErr (JsonResp × Nat) :=
  let recipients := (get_campaign_recipients cfg server campaign_id).2
  (campaignLoop li deliver campaign_id campaign_subject recipients,
   .ok (.statusMessage "success" "Campaign processed", 200))

/-- The `if/elif` chain at lines 67–88, restricted to the non-campaign
event types: the pair of Python locals `(event_name, email_opt_in)` after
the chain, `none` meaning "this branch left the variable unassigned".
`subscribe`/`unsubscribe`/`profile` assign both; `open`/`click`/`bounce`
assign only `event_name`; an unrecognized type assigns neither. -/
def branchLocals (event_type : String) : Option String × Option Bool :=
  if event_type = "subscribe" then (some "User Subscribed", some true)
  else if event_type = "unsubscribe" then (some "User Unsubscribed", some false)
  else if event_type = "profile" then (some "Profile Updated", some true)
  else if event_type = "open" then (some "Email Opened", none)
  else if event_type = "click" then (some "Link Clicked", none)
  else if event_type = "bounce" then (some "Email Bounced", none)
  else (none, none)

/-- The tail of `home()` for a non-campaign event (lines 139–172): build the
payload literal and send it.  The dict literal evaluates `email_opt_in`
(line 146) before `event_name` (line 159), so when the chain left
`email_opt_in` unassigned the handler raises `UnboundLocalError
"email_opt_in"` there, before any delivery; an unassigned `event_name`
would be the next read.  When the payload is built, `send_to_regal` runs,
and then line 172 reads the name `response`, which is bound neither locally
in `home` nor at module level, so the handler raises `NameError "response"`
after the delivery: the success body of line 172 is unreachable. -/
def nonCampaignBranch (deliver : RegalPayload → HttpResponse Unit)
    (data : String → Option String) (event_type : String)
    (clicked_link : Int) : List Action × Except PyErr (JsonResp × Nat) :=
  match (branchLocals event_type).2, (branchLocals event_type).1 with
  | none, _ => ([], .error (.unboundLocal "email_opt_in"))
  | some _, none => ([], .error (.unboundLocal "event_name"))
  | some email_opt_in, some event_name =>
    let payload := RegalPayload.nonCampaignP
      { traits := { phone := (data "data[merges][PHONE]").getD ""
                    emails_key := (data "data[email]").getD ""
                    emailOptIn_subscribed := email_opt_in
                    firstName := (data "data[merges][FNAME]").getD ""
                    lastName := (data "data[merges][LNAME]").getD ""
                    zip := (data "data[merges][MMERGE12]").getD ""
                    state := (data "data[merges][MMERGE21]").getD ""
                    clicked_link := clicked_link
                    opened_email := (data "data[merges][MMERGE8]").getD "0"
                    bounced_email := (data "data[merges][MMERGE10]").getD "0"
                    marked_as_spam := (data "data[merges][MMERGE11]").getD "0" }
        name := event_name
        properties := { clicked_link := clicked_link
                        opened_email := (data "data[merges][MMERGE8]").getD "0"
                        bounced_email := (data "data[merges][MMERGE10]").getD "0"
                        marked_as_spam := (data "data[merges][MMERGE11]").getD "0" }
        eventSource := "MailChimp" }
    let result := send_to_regal deliver payload
    ([Action.callRegal payload result], .error (.nameError "response"))

/-- The webhook handler `home()` on a POST whose body was accepted (JSON or
form-encoded), lines 52–172.  The GET branch (returns 200 immediately) and
the 415 unsupported-media-type branch return before any of this and are not
modelled.  In source order: `event_type = data.get("type", "unknown")`; the
list-info fetch (whose errors are contained inside it); the field
extraction of lines 56–65, in which only `MMERGE9` passes through
`int(...)` — its `ValueError` propagates out of the handler with nothing
delivered; then the `campaign` branch or the non-campaign tail.  The result
is the trace of delivery/sleep actions performed and the handler's outcome
(a `jsonify` body with status code, or the uncaught Python exception). -/
def homePost (cfg : Config) (listResp : HttpResponse ListApiBody)
    (server : HttpRequest → HttpResponse ReportBody)
    (deliver : RegalPayload → HttpResponse Unit)
    (data : String → Option String) :
    List Action × Except PyErr (JsonResp × Nat) :=
  let event_type := (data "type").getD "unknown"
  let mailchimp_list_info := get_mailchimp_list_info listResp
  match pyInt ((data "data[merges][MMERGE9]").getD "0") with
  | .error e => ([], .error e)
  | .ok clicked_link =>
    if event_type = "campaign" then
      let campaign_id := (data "data[id]").getD ""
      let campaign_subject := (data "data[subject]").getD ""
      campaignBranch mailchimp_list_info cfg server deliver campaign_id
        campaign_subject
    else
      nonCampaignBranch deliver data event_type clicked_link

/-! ### Spec-side definitions (for comparison with the source's behaviour) -/

/-- A Python value as the spec's coercion rule distinguishes them: a string,
an integer, or a float (decimal floats of interest are represented
exactly as rationals). -/
inductive PyVal where
  | vStr (s : String)
  | vInt (n : Int)
  | vFloat (q : ℚ)
  deriving Repr, DecidableEq

/-- Whether a value is a float. -/
def PyVal.isFloat : PyVal → Bool
  | .vFloat _ => true
  | _ => false

/-- Parse of a decimal literal `[sign] digits . digits` as a rational. -/
def parseDecimal (s : String) : Option ℚ :=
  let cs := stripChars s.toList
  let (sign, rest) :=
    match cs with
    | '-' :: t => ((-1 : ℚ), t)
    | '+' :: t => ((1 : ℚ), t)
    | t => ((1 : ℚ), t)
  match rest.span (fun c => !(c == '.')) with
  | (intPart, '.' :: fracPart) =>
      if (intPart.length > 0 || fracPart.length > 0)
          && intPart.all Char.isDigit && fracPart.all Char.isDigit then
        let ip : Nat := intPart.foldl (fun n c => 10 * n + (c.toNat - 48)) 0
        let fp : Nat := fracPart.foldl (fun n c => 10 * n + (c.toNat - 48)) 0
        some (sign * ((ip : ℚ) + (fp : ℚ) / ((10 : ℚ) ^ fracPart.length)))
      else none
  | _ => none

/-- Modelled from the spec: the numeric coercion §4.3 prescribes for
engagement fields arriving as source strings — "a value containing `.`
coerces to floating point, otherwise to integer; a value that fails
coercion is passed through unchanged (not an error)".  This definition
follows the spec's words; it exists only to be compared with what the
source actually does at lines 62–65. -/
def specCoerceNumeric (s : String) : PyVal :=
  if s.toList.contains '.' then
    match parseDecimal s with
    | some q => .vFloat q
    | none => .vStr s
  else
    match pyInt s with
    | .ok n => .vInt n
    | .error _ => .vStr s

/-! ### Concrete fixtures for witnesses and counterexamples -/

/-- A concrete configuration. -/
def cfg0 : Config := ⟨"regal-key", "mc-key", "list-1", "us21"⟩

/-- A list-info fetch that fails at the transport level. -/
def listRespFail : HttpResponse ListApiBody := .transportError

/-- A report server on which every request fails at the transport level. -/
def serverFail : HttpRequest → HttpResponse ReportBody :=
  fun _ => .transportError

/-- A Regal.io endpoint that accepts every event with 200. -/
def deliverOk : RegalPayload → HttpResponse Unit := fun _ => .ok 200 ()

/-- A recipient with an empty activity log. -/
def mockRecipient : Recipient := ⟨some "user@example.com", some []⟩

/-- The spec's mock paginated endpoint: pages of sizes 100, 100, 37, 0,
keyed by an `offset` query parameter (absent means offset 0). -/
def mockPages (offset : Nat) : List Recipient :=
  if offset = 0 ∨ offset = 100 then List.replicate 100 mockRecipient
  else if offset = 200 then List.replicate 37 mockRecipient
  else []

/-- The offset a request carries (its `offset` query parameter, default 0). -/
def requestOffset (req : HttpRequest) : Nat :=
  match (req.params.lookup "offset").bind (fun s => (pyInt s).toOption) with
  | some n => n.toNat
  | none => 0

/-- The mock report server serving `mockPages` by offset, always 200. -/
def mockPagedServer : HttpRequest → HttpResponse ReportBody :=
  fun req => .ok 200 ⟨some (mockPages (requestOffset req))⟩

/-- A report server whose one report has an empty `emails` array. -/
def emptyReportServer : HttpRequest → HttpResponse ReportBody :=
  fun _ => .ok 200 ⟨some []⟩

/-- A list body with every field present, used to show a non-2xx,
non-4xx/5xx status is processed as a success. -/
def listBody300 : ListApiBody :=
  ⟨some ⟨some "Ann", some "ann@example.com", some "Hello", some "en"⟩,
   some ⟨some 5, some 7⟩⟩

/-- The status field of a handler outcome, when it returned a body. -/
def respStatus : Except PyErr (JsonResp × Nat) → Option String
  | .ok (.statusMessage s _, _) => some s
  | .ok (.statusRegalResponse s _, _) => some s
  | .error _ => none

/-- The traits of the first delivered non-campaign payload of a trace,
when there is one. -/
def firstNonCampaignTraits : List Action → Option NonCampaignTraits
  | Action.callRegal (RegalPayload.nonCampaignP p) _ :: _ => some p.traits
  | _ => none

/-- Counting activity entries with `countP` equals the length of the
corresponding filter. -/
theorem countP_action_filter (l : List Activity) (s : String) :
    l.countP (fun a => a.action == s) =
      (l.filter (fun a => a.action == s)).length := by
  rw [List.countP_eq_length_filter]

/-- A non-campaign webhook with data type `t`. -/
def dataOfType (t : String) : String → Option String :=
  fun k => if k = "type" then some t else none

/-- A campaign webhook body. -/
def dataCampaign : String → Option String := dataOfType "campaign"

/-- A webhook body whose `MMERGE9` merge field is the non-numeric `"abc"`. -/
def dataAbc : String → Option String :=
  fun k => if k = "data[merges][MMERGE9]" then some "abc" else none

/-- A subscribe webhook whose `MMERGE8` merge field is the string `"3"`. -/
def dataSubscribe3 : String → Option String :=
  fun k =>
    if k = "type" then some "subscribe"
    else if k = "data[merges][MMERGE8]" then some "3" else none

/-- A recipient with one open and two clicks in its activity log. -/
def recA : Recipient := ⟨some "a@example.com", some [⟨"open"⟩, ⟨"click"⟩, ⟨"click"⟩]⟩

/-- A recipient with no activity. -/
def recB : Recipient := ⟨some "b@example.com", some []⟩

/-- C1 (counterexample): against the spec's mock endpoint that serves pages
of sizes [100, 100, 37, 0] keyed by an `offset` parameter, the recipient
fetch of the source makes exactly ONE page request, not 4, and assembles
the 100 records of the first page, not 237: `get_campaign_recipients` has
no pagination loop. -/
theorem recipient_fetch_mock_one_request :
    (get_campaign_recipients cfg0 mockPagedServer "c1").1.length = 1 ∧
    (get_campaign_recipients cfg0 mockPagedServer "c1").1.length ≠ 4 ∧
    (get_campaign_recipients cfg0 mockPagedServer "c1").2.length = 100 ∧
    (get_campaign_recipients cfg0 mockPagedServer "c1").2.length ≠ 237 := by
  have h1 : (get_campaign_recipients cfg0 mockPagedServer "c1").1.length = 1 := rfl
  have h2 : (get_campaign_recipients cfg0 mockPagedServer "c1").2.length = 100 := rfl
  exact ⟨h1, by rw [h1]; decide, h2, by rw [h2]; decide⟩

/-- C1 (amended): the recipient fetch issues exactly one request — the
email-activity report URL with no offset/count query parameters — for every
choice of server, and returns the `emails` array of that single response
when its status is not a 4xx/5xx error.  Termination is trivial (one
request); there is no offset cursor, no fixed page size and no
empty-page stopping rule. -/
theorem recipient_fetch_single_request (cfg : Config)
    (server : HttpRequest → HttpResponse ReportBody) (cid : String) :
    (get_campaign_recipients cfg server cid).1 =
      [campaignRecipientsRequest cfg cid] ∧
    (campaignRecipientsRequest cfg cid).params = [] ∧
    ∀ status body, server (campaignRecipientsRequest cfg cid) = .ok status body →
      ¬ (400 ≤ status ∧ status < 600) →
      (get_campaign_recipients cfg server cid).2 = body.emails.getD [] := by
  refine ⟨?_, rfl, ?_⟩
  · unfold get_campaign_recipients
    cases h : raiseForStatus (server (campaignRecipientsRequest cfg cid)) <;>
      simp [h]
  · intro status body hs hns
    simp [get_campaign_recipients, raiseForStatus, hs, hns]

/-- C2: the campaign fan-out emits exactly one event per fetched recipient
(a recipient with no activity is still emitted, with all-zero counters),
and each event's `clicked_link`, `opened_email` and `bounced_email` — in
`properties` and in `traits` alike — equal the number of entries of that
recipient's activity log whose `action` is `"click"`, `"open"`, `"bounce"`
respectively. -/
theorem campaign_event_counts (li : Option ListInfoData)
    (deliver : RegalPayload → HttpResponse Unit) (cid cs : String)
    (recipients : List Recipient) :
    (campaignLoop li deliver cid cs recipients).length = recipients.length ∧
    ∀ r ∈ recipients,
      (∃ res, Action.callRegal
          (RegalPayload.campaignP (buildCampaignEvent li cid cs r)) res
          ∈ campaignLoop li deliver cid cs recipients) ∧
      (buildCampaignEvent li cid cs r).properties.clicked_link =
        ((r.activity.getD []).filter (fun a => a.action == "click")).length ∧
      (buildCampaignEvent li cid cs r).properties.opened_email =
        ((r.activity.getD []).filter (fun a => a.action == "open")).length ∧
      (buildCampaignEvent li cid cs r).properties.bounced_email =
        ((r.activity.getD []).filter (fun a => a.action == "bounce")).length ∧
      (buildCampaignEvent li cid cs r).traits.clicked_link =
        ((r.activity.getD []).filter (fun a => a.action == "click")).length ∧
      (buildCampaignEvent li cid cs r).traits.opened_email =
        ((r.activity.getD []).filter (fun a => a.action == "open")).length ∧
      (buildCampaignEvent li cid cs r).traits.bounced_email =
        ((r.activity.getD []).filter (fun a => a.action == "bounce")).length := by
  refine ⟨by simp [campaignLoop], fun r hr => ?_⟩
  refine ⟨⟨send_to_regal deliver
      (RegalPayload.campaignP (buildCampaignEvent li cid cs r)), ?_⟩,
    ?_, ?_, ?_, ?_, ?_, ?_⟩
  · exact List.mem_map_of_mem _ hr
  all_goals simp [buildCampaignEvent, countP_action_filter]

/-- C2 (witness): on the end-to-end example — recipient A with one open and
two clicks, recipient B with no activity — two events are emitted, A's with
`opened_email = 1`, `clicked_link = 2`, B's with all-zero counters. -/
theorem campaign_event_counts_witness :
    (campaignLoop none deliverOk "c1" "s" [recA, recB]).length = 2 ∧
    (buildCampaignEvent none "c1" "s" recA).properties.clicked_link = 2 ∧
    (buildCampaignEvent none "c1" "s" recA).properties.opened_email = 1 ∧
    (buildCampaignEvent none "c1" "s" recB).properties.clicked_link = 0 ∧
    (buildCampaignEvent none "c1" "s" recB).properties.opened_email = 0 ∧
    (buildCampaignEvent none "c1" "s" recB).properties.bounced_email = 0 := by
  have h := campaign_event_counts none deliverOk "c1" "s" [recA, recB]
  have hA := h.2 recA (by simp)
  have hB := h.2 recB (by simp)
  exact ⟨h.1, by rw [hA.2.1]; decide, by rw [hA.2.2.1]; decide,
    by rw [hB.2.1]; decide, by rw [hB.2.2.1]; decide, by rw [hB.2.2.2.1]; decide⟩

/-- C3 (counterexample): a delivered response with the non-2xx status 300
is NOT degraded to the empty dict — `raise_for_status` raises only for
`400 ≤ status < 600`, so the 300 body is processed as a success. -/
theorem list_info_status_300_processed :
    get_mailchimp_list_info (.ok 300 listBody300) =
      some ⟨"Ann", "ann@example.com", "Hello", "en", 5, 7⟩ ∧
    get_mailchimp_list_info (.ok 300 listBody300) ≠ none := by
  exact ⟨rfl, by decide⟩

/-- C3 (amended): a transport failure, or a delivered status in the 4xx/5xx
range, makes `get_mailchimp_list_info` return the empty dict and
`get_campaign_recipients` return the empty list; both functions are total
(the `RequestException` is caught inside), so no exception reaches the
caller.  Statuses outside 400–599 are processed as successes. -/
theorem read_endpoint_errors_degrade (cfg : Config)
    (server : HttpRequest → HttpResponse ReportBody) (cid : String)
    (s : Nat) (b : ListApiBody) (rb : ReportBody) :
    get_mailchimp_list_info .transportError = none ∧
    (400 ≤ s → s < 600 → get_mailchimp_list_info (.ok s b) = none) ∧
    (get_campaign_recipients cfg (fun _ => .transportError) cid).2 = [] ∧
    (400 ≤ s → s < 600 → server (campaignRecipientsRequest cfg cid) = .ok s rb →
      (get_campaign_recipients cfg server cid).2 = []) := by
  refine ⟨rfl, fun h1 h2 => ?_, rfl, fun h1 h2 hs => ?_⟩
  · simp [get_mailchimp_list_info, raiseForStatus, h1, h2]
  · simp [get_campaign_recipients, raiseForStatus, hs, h1, h2]

/-- C4: delivery is attempted for every event of the batch, in order, and
the outcome recorded for the i-th event depends only on the endpoint's
response to that event's own payload — a failure of any other delivery can
not prevent it.  `send_to_regal` is total (every `RequestException` is
caught inside it), so no exception escapes the loop. -/
theorem delivery_isolation (li : Option ListInfoData)
    (deliver : RegalPayload → HttpResponse Unit) (cid cs : String)
    (recipients : List Recipient) :
    (campaignLoop li deliver cid cs recipients).length = recipients.length ∧
    ∀ i : Nat, (campaignLoop li deliver cid cs recipients)[i]? =
      (recipients[i]?).map (fun r =>
        Action.callRegal
          (RegalPayload.campaignP (buildCampaignEvent li cid cs r))
          (send_to_regal deliver
            (RegalPayload.campaignP (buildCampaignEvent li cid cs r)))) := by
  refine ⟨by simp [campaignLoop], fun i => ?_⟩
  simp [campaignLoop, List.getElem?_map]

/-- C6 (counterexample): a concrete batch of two events produces a trace of
exactly two delivery calls and zero sleep actions — no 1-second delay is
enforced between successive deliveries (the source contains no sleep
call). -/
theorem campaign_no_pacing_concrete :
    (campaignLoop none deliverOk "c1" "s" [recA, recB]).length = 2 ∧
    (campaignLoop none deliverOk "c1" "s" [recA, recB]).countP
      Action.isSleep = 0 := by
  exact ⟨rfl, rfl⟩

/-- C6 (amended): deliveries are made one at a time — exactly one outbound
call per event, in batch order — but with NO delay between successive
calls: the delivery loop's action trace contains no sleep at all, whatever
the delivery outcomes. -/
theorem delivery_sequential_no_sleep (li : Option ListInfoData)
    (deliver : RegalPayload → HttpResponse Unit) (cid cs : String)
    (recipients : List Recipient) :
    (campaignLoop li deliver cid cs recipients).countP Action.isSleep = 0 ∧
    (campaignLoop li deliver cid cs recipients).length = recipients.length := by
  refine ⟨?_, by simp [campaignLoop]⟩
  induction recipients with
  | nil => rfl
  | cons r rest ih =>
      simp only [campaignLoop, List.map_cons, List.countP_cons] at ih ⊢
      simp [Action.isSleep, ih]

/-- C8 (counterexample): when the recipient fetch yields zero recipients,
the campaign branch still answers
`({"status": "success", "message": "Campaign processed"}, 200)` — there is
no `{status: error, message: "No contacts found..."}` response; the status
field is `"success"`, not `"error"`. -/
theorem campaign_zero_recipients_success :
    (campaignBranch none cfg0 emptyReportServer deliverOk "c1" "s").1 = [] ∧
    (campaignBranch none cfg0 emptyReportServer deliverOk "c1" "s").2 =
      .ok (.statusMessage "success" "Campaign processed", 200) ∧
    respStatus (campaignBranch none cfg0 emptyReportServer deliverOk "c1" "s").2
      ≠ some "error" := by
  exact ⟨rfl, rfl, by decide⟩

/-- C8 (amended): a campaign-sent webhook whose body parses always answers
`({"status": "success", "message": "Campaign processed"}, 200)`, whatever
the recipient fetch returned — zero recipients included.  The handler has
no "No contacts found" path. -/
theorem campaign_response_always_success (cfg : Config)
    (listResp : HttpResponse ListApiBody)
    (server : HttpRequest → HttpResponse ReportBody)
    (deliver : RegalPayload → HttpResponse Unit)
    (data : String → Option String)
    (h : data "type" = some "campaign")
    (n : Int) (hn : pyInt ((data "data[merges][MMERGE9]").getD "0") = .ok n) :
    (homePost cfg listResp server deliver data).2 =
      .ok (.statusMessage "success" "Campaign processed", 200) := by
  simp [homePost, h, hn, campaignBranch]

/-- C8 (witness): the amended response equality at a concrete campaign
webhook whose report has zero recipients. -/
theorem campaign_response_always_success_witness :
    (homePost cfg0 listRespFail emptyReportServer deliverOk dataCampaign).2 =
      .ok (.statusMessage "success" "Campaign processed", 200) :=
  campaign_response_always_success cfg0 listRespFail emptyReportServer
    deliverOk dataCampaign rfl 0 rfl

/-- When the event type is none of `subscribe`, `unsubscribe`, `profile`,
the `if/elif` chain leaves the Python local `email_opt_in` unassigned. -/
theorem branchLocals_snd_none (et : String) (h1 : et ≠ "subscribe")
    (h2 : et ≠ "unsubscribe") (h3 : et ≠ "profile") :
    (branchLocals et).2 = none := by
  unfold branchLocals
  split_ifs <;> simp_all

/-- The non-campaign tail never returns a body: every path ends in an
uncaught exception. -/
theorem nonCampaignBranch_no_ok (deliver : RegalPayload → HttpResponse Unit)
    (data : String → Option String) (et : String) (n : Int)
    (r : JsonResp × Nat) :
    (nonCampaignBranch deliver data et n).2 ≠ .ok r := by
  unfold nonCampaignBranch
  rcases h2 : (branchLocals et).2 with _ | b <;>
    rcases h1 : (branchLocals et).1 with _ | s <;> simp

/-- C5 (counterexample): at `MMERGE9 = "abc"` the handler raises an uncaught
`ValueError` from `int("abc")` and delivers nothing, while the spec's
coercion rule would pass `"abc"` through unchanged; and at
`MMERGE8 = "3"` on a subscribe event the delivered `opened_email` trait is
the unchanged string `"3"`, while the spec's rule coerces `"3"` to the
integer 3 (and `"3.5"` to the float 3.5). -/
theorem coercion_counterexample :
    homePost cfg0 listRespFail serverFail deliverOk dataAbc =
      ([], .error .valueError) ∧
    specCoerceNumeric "abc" = .vStr "abc" ∧
    (firstNonCampaignTraits (homePost cfg0 listRespFail serverFail deliverOk
        dataSubscribe3).1).map (fun t => t.opened_email) = some "3" ∧
    specCoerceNumeric "3" = .vInt 3 ∧
    (specCoerceNumeric "3.5").isFloat = true := by
  exact ⟨rfl, rfl, rfl, rfl, rfl⟩

/-- C5 (amended): of the four engagement merge fields, only `MMERGE9`
(`clicked_link`) is coerced, by Python's `int(...)`: when that coercion
fails the handler raises the `ValueError` (nothing is passed through,
nothing delivered); when it succeeds, the other three fields
(`opened_email`, `bounced_email`, `marked_as_spam`) are placed in the
outbound event as their raw webhook strings, unchanged — no float
coercion and no lenient pass-through exists in the handler. -/
theorem engagement_field_coercion (cfg : Config)
    (listResp : HttpResponse ListApiBody)
    (server : HttpRequest → HttpResponse ReportBody)
    (deliver : RegalPayload → HttpResponse Unit)
    (data : String → Option String) :
    (∀ e, pyInt ((data "data[merges][MMERGE9]").getD "0") = .error e →
      homePost cfg listResp server deliver data = ([], .error e)) ∧
    (∀ n, pyInt ((data "data[merges][MMERGE9]").getD "0") = .ok n →
      data "type" = some "subscribe" →
      (firstNonCampaignTraits
          (homePost cfg listResp server deliver data).1).map
        (fun t => (t.clicked_link, t.opened_email, t.bounced_email,
          t.marked_as_spam)) =
      some (n, (data "data[merges][MMERGE8]").getD "0",
        (data "data[merges][MMERGE10]").getD "0",
        (data "data[merges][MMERGE11]").getD "0")) := by
  constructor
  · intro e he
    simp [homePost, he]
  · intro n hn hsub
    have he : ((data "type").getD "unknown") = "subscribe" := by rw [hsub]; rfl
    simp [homePost, hn, he, nonCampaignBranch, branchLocals,
      firstNonCampaignTraits]

/-- C7: module import succeeds exactly when all four required environment
variables are present; a missing one makes the `os.environ[...]` read at
lines 11–14 raise `KeyError` at process start, before any endpoint
handler or API call (all of which need the resulting `Config`) can run. -/
theorem config_fail_fast (env : String → Option String) :
    (∃ c, loadConfig env = .ok c) ↔
      ((env "REGAL_IO_API_KEY").isSome ∧ (env "MAILCHIMP_API_KEY").isSome ∧
       (env "MAILCHIMP_LIST_ID").isSome ∧ (env "MAILCHIMP_DC").isSome) := by
  cases h1 : env "REGAL_IO_API_KEY" <;>
    cases h2 : env "MAILCHIMP_API_KEY" <;>
      cases h3 : env "MAILCHIMP_LIST_ID" <;>
        cases h4 : env "MAILCHIMP_DC" <;>
          simp [loadConfig, osEnvironGet, h1, h2, h3, h4, Bind.bind,
            Except.bind]

/-- C9: a webhook whose type is `open`, `click`, `bounce` or unrecognized
delivers nothing: the payload literal reads the unassigned local
`email_opt_in` and the handler raises `UnboundLocalError` before
`send_to_regal` (when the earlier `int(...)` coercion succeeded; when it
failed, the handler raised even earlier, still delivering nothing).
Conversely, a non-campaign webhook that delivered anything had type
`subscribe`, `unsubscribe` or `profile`. -/
theorem activity_webhooks_never_delivered (cfg : Config)
    (listResp : HttpResponse ListApiBody)
    (server : HttpRequest → HttpResponse ReportBody)
    (deliver : RegalPayload → HttpResponse Unit)
    (data : String → Option String) :
    (((data "type").getD "unknown" ≠ "subscribe") →
     ((data "type").getD "unknown" ≠ "unsubscribe") →
     ((data "type").getD "unknown" ≠ "profile") →
     ((data "type").getD "unknown" ≠ "campaign") →
      (homePost cfg listResp server deliver data).1 = [] ∧
      (∀ n, pyInt ((data "data[merges][MMERGE9]").getD "0") = .ok n →
        (homePost cfg listResp server deliver data).2 =
          .error (.unboundLocal "email_opt_in"))) ∧
    ((homePost cfg listResp server deliver data).1 ≠ [] →
     ((data "type").getD "unknown" ≠ "campaign") →
     ((data "type").getD "unknown" = "subscribe" ∨
      (data "type").getD "unknown" = "unsubscribe" ∨
      (data "type").getD "unknown" = "profile")) := by
  constructor
  · intro h1 h2 h3 h4
    have hbl := branchLocals_snd_none _ h1 h2 h3
    cases hp : pyInt ((data "data[merges][MMERGE9]").getD "0") with
    | error e =>
        refine ⟨by simp [homePost, hp], fun n hn => ?_⟩
        cases hn
    | ok n0 =>
        refine ⟨?_, fun n hn => ?_⟩ <;>
          simp [homePost, hp, h4, nonCampaignBranch, hbl]
  · intro hne h4
    by_contra hcon
    push_neg at hcon
    obtain ⟨g1, g2, g3⟩ := hcon
    have hbl := branchLocals_snd_none _ g1 g2 g3
    apply hne
    cases hp : pyInt ((data "data[merges][MMERGE9]").getD "0") with
    | error e => simp [homePost, hp]
    | ok n => simp [homePost, hp, h4, nonCampaignBranch, hbl]

/-- C10: a non-campaign webhook never gets the documented success body:
every path of the handler after the branch chain ends in an uncaught
exception, so the result is never `.ok`.  In particular a
`subscribe`/`unsubscribe`/`profile` event whose `int(...)` coercion
succeeded performs its single delivery and then raises
`NameError "response"` at the final `return` (line 172), whose `response`
name is bound neither locally nor at module level. -/
theorem noncampaign_success_never_returned (cfg : Config)
    (listResp : HttpResponse ListApiBody)
    (server : HttpRequest → HttpResponse ReportBody)
    (deliver : RegalPayload → HttpResponse Unit)
    (data : String → Option String) :
    (((data "type").getD "unknown" ≠ "campaign") →
      ∀ r : JsonResp × Nat,
        (homePost cfg listResp server deliver data).2 ≠ .ok r) ∧
    (∀ n, pyInt ((data "data[merges][MMERGE9]").getD "0") = .ok n →
      ((data "type").getD "unknown" = "subscribe" ∨
       (data "type").getD "unknown" = "unsubscribe" ∨
       (data "type").getD "unknown" = "profile") →
      (homePost cfg listResp server deliver data).2 =
        .error (.nameError "response") ∧
      (homePost cfg listResp server deliver data).1.length = 1) := by
  constructor
  · intro h4 r
    cases hp : pyInt ((data "data[merges][MMERGE9]").getD "0") with
    | error e => simp [homePost, hp]
    | ok n =>
        have hno := nonCampaignBranch_no_ok deliver data
          ((data "type").getD "unknown") n r
        simp [homePost, hp, h4]
        exact hno
  · intro n hn hor
    rcases hor with h | h | h <;>
      simp [homePost, hn, h, nonCampaignBranch, branchLocals]

/-- C3 (witness): a 404 on the list endpoint yields the empty dict; a 500
on the report endpoint yields the empty recipient list, even though the
response carries a recipient. -/
theorem read_endpoint_errors_degrade_witness :
    get_mailchimp_list_info (.ok 404 listBody300) = none ∧
    (get_campaign_recipients cfg0
      (fun _ => .ok 500 ⟨some [mockRecipient]⟩) "c1").2 = [] := by
  have h := read_endpoint_errors_degrade cfg0
    (fun _ => .ok 500 ⟨some [mockRecipient]⟩) "c1" 404 listBody300
    ⟨some [mockRecipient]⟩
  have h2 := read_endpoint_errors_degrade cfg0
    (fun _ => .ok 500 ⟨some [mockRecipient]⟩) "c1" 500 listBody300
    ⟨some [mockRecipient]⟩
  exact ⟨h.2.1 (by decide) (by decide), h2.2.2.2 (by decide) (by decide) rfl⟩

/-- C5 (witness): the amended behaviour at the concrete inputs: `"abc"` in
`MMERGE9` raises `ValueError`; a subscribe event with `"3"` in `MMERGE8`
delivers `clicked_link = 0` (coerced int of the default `"0"`) and the raw
strings `"3"`, `"0"`, `"0"` for the other three fields. -/
theorem engagement_field_coercion_witness :
    homePost cfg0 listRespFail serverFail deliverOk dataAbc =
      ([], .error .valueError) ∧
    (firstNonCampaignTraits (homePost cfg0 listRespFail serverFail deliverOk
        dataSubscribe3).1).map
      (fun t => (t.clicked_link, t.opened_email, t.bounced_email,
        t.marked_as_spam)) = some (0, "3", "0", "0") := by
  have h := engagement_field_coercion cfg0 listRespFail serverFail deliverOk
    dataAbc
  have h2 := engagement_field_coercion cfg0 listRespFail serverFail deliverOk
    dataSubscribe3
  exact ⟨h.1 .valueError rfl, h2.2 0 rfl rfl⟩

/-- C9 (witness): an `open` webhook delivers nothing and ends in
`UnboundLocalError "email_opt_in"`. -/
theorem activity_webhooks_never_delivered_witness :
    (homePost cfg0 listRespFail serverFail deliverOk (dataOfType "open")).1 =
      [] ∧
    (homePost cfg0 listRespFail serverFail deliverOk (dataOfType "open")).2 =
      .error (.unboundLocal "email_opt_in") := by
  have h := activity_webhooks_never_delivered cfg0 listRespFail serverFail
    deliverOk (dataOfType "open")
  have h1 := h.1 (by decide) (by decide) (by decide) (by decide)
  exact ⟨h1.1, h1.2 0 rfl⟩

/-- C10 (witness): a `subscribe` webhook performs its one delivery and then
ends in `NameError "response"`, never in the documented success body. -/
theorem noncampaign_success_never_returned_witness :
    (homePost cfg0 listRespFail serverFail deliverOk
        (dataOfType "subscribe")).2 = .error (.nameError "response") ∧
    (homePost cfg0 listRespFail serverFail deliverOk
        (dataOfType "subscribe")).1.length = 1 := by
  have h := noncampaign_success_never_returned cfg0 listRespFail serverFail
    deliverOk (dataOfType "subscribe")
  exact h.2 0 rfl (Or.inl (by decide))

end SyncService
